import Mathlib

/-!
Verification development for the open-science-catalog-builder pipeline
(`src/process.py`).  The Python source is shallowly embedded below:
pure helpers become Lean functions, the stateful `main` pipeline becomes
explicit state passing over lists of collection records (aliasing of the
mutated pystac objects is modelled by indices into those lists), and
Python exceptions become `Except String` results.
-/

/-! ## Date parsing (`parse_date`, process.py lines 49-53)

`parse_date` splits a `"Year.Month"` string on `"."`, converts both parts
with Python's `int`, and builds `datetime(int(year), int(month) + 1, 1)`.
`datetime` validates year (1..9999), then month (1..12), then day.
-/

/-- A constructed `datetime.datetime` value (only the date part is ever
used by the pipeline). -/
structure PyDate where
  year : Int
  month : Int
  day : Int
deriving Repr, DecidableEq

/-- Numeric value of a list of decimal digit characters. -/
def digitsToNat (cs : List Char) : Nat :=
  cs.foldl (fun n c => n * 10 + (c.toNat - 48)) 0

/-- Python's `int(str)` conversion, modelled on the forms exercised by the
pipeline: an optional single sign followed by a non-empty run of decimal
digits.  (Python additionally strips surrounding whitespace and allows
digit-group underscores; no input considered in this development uses
those forms.)  Returns `none` where Python raises `ValueError`. -/
def pyInt (s : String) : Option Int :=
  match s.data with
  | [] => none
  | '-' :: rest =>
      if rest ≠ [] ∧ rest.all Char.isDigit then some (-(digitsToNat rest : Int)) else none
  | '+' :: rest =>
      if rest ≠ [] ∧ rest.all Char.isDigit then some ((digitsToNat rest : Int)) else none
  | cs =>
      if cs.all Char.isDigit then some ((digitsToNat cs : Int)) else none

/-- Split a character list at every occurrence of `sep`, keeping empty
segments, as Python's `str.split(sep)` does for a one-character separator
(`"".split(".") == [""]`, `"a..b".split(".") == ["a", "", "b"]`). -/
def splitChar (sep : Char) : List Char → List (List Char)
  | [] => [[]]
  | c :: rest =>
    if c = sep then [] :: splitChar sep rest
    else
      match splitChar sep rest with
      | [] => [[c]]
      | w :: ws => (c :: w) :: ws

/-- Python's `source.split(sep)` for a one-character separator. -/
def pySplit (s : String) (sep : Char) : List String :=
  (splitChar sep s.data).map (fun l => String.mk l)

/-- Python's `str.strip()`: drop leading and trailing whitespace. -/
def pyStrip (s : String) : String :=
  String.mk (((s.data.dropWhile Char.isWhitespace).reverse.dropWhile Char.isWhitespace).reverse)

/-- Is the first list a prefix of the second? -/
def isPrefixList : List Char → List Char → Bool
  | [], _ => true
  | _ :: _, [] => false
  | p :: ps, c :: cs => (p == c) && isPrefixList ps cs

/-- Python's `s.startswith(pat)`. -/
def pyStartsWith (s pat : String) : Bool :=
  isPrefixList pat.data s.data

/-- Leap-year rule used by `datetime` for February. -/
def isLeap (y : Int) : Bool :=
  (y % 4 == 0 && y % 100 != 0) || (y % 400 == 0)

/-- Number of days of month `m` in year `y` (as validated by `datetime`). -/
def daysInMonth (y m : Int) : Int :=
  if m = 2 then (if isLeap y then 29 else 28)
  else if m = 4 ∨ m = 6 ∨ m = 9 ∨ m = 11 then 30
  else 31

/-- `datetime.datetime(y, m, d)` construction: CPython validates the year
range first, then the month range, then the day range, raising
`ValueError` on the first violation. -/
def mkDatetime (y m d : Int) : Except String PyDate :=
  if y < 1 ∨ 9999 < y then .error "ValueError: year is out of range"
  else if m < 1 ∨ 12 < m then .error "ValueError: month must be in 1..12"
  else if d < 1 ∨ daysInMonth y m < d then .error "ValueError: day is out of range for month"
  else .ok ⟨y, m, d⟩

/-- `parse_date` (process.py lines 49-53).  An empty (falsy) source yields
`None`; otherwise `year, month = source.split(".")` (raising `ValueError`
unless the split has exactly two parts), then
`datetime(int(year), int(month) + 1, 1)`. -/
def parse_date (source : String) : Except String (Option PyDate) :=
  if source = "" then .ok none
  else
    match pySplit source '.' with
    | [year, month] =>
      match pyInt year, pyInt month with
      | some y, some m =>
        match mkDatetime y (m + 1) 1 with
        | .ok d => .ok (some d)
        | .error e => .error e
      | _, _ => .error "ValueError: invalid literal for int"
    | _ => .error "ValueError: unpacking mismatch"

/-! ## Geometry parsing (`get_depth`, `get_geometry`, process.py lines 35-79)

`json.loads` itself is an external library routine (raw format decoding is
out of scope per the spec); its outcome on the source string is passed in
explicitly as a `LoadResult` oracle.  Everything after the load — the
depth computation and the branch structure of `get_geometry` — is embedded
from the source.
-/

/-- A decoded Python JSON value. -/
inductive Json where
  | null
  | bool (b : Bool)
  | num (n : Int)
  | str (s : String)
  | arr (xs : List Json)
  | obj (kvs : List (String × Json))

/-- Outcome of `json.loads(source)`: either a `ValueError` or a value. -/
inductive LoadResult where
  | failure
  | success (j : Json)

/-- `get_depth` (process.py lines 35-38): recurses into `maybe_list[0]`
while the value is a list; `[][0]` raises `IndexError`. -/
def get_depth : Json → Except String Nat
  | .arr [] => .error "IndexError: list index out of range"
  | .arr (x :: _) => (get_depth x).map (· + 1)
  | _ => .ok 0

/-- A constructed pygeoif geometry (only its structure matters here). -/
inductive Geom where
  | point (coords : List Json)
  | polygon (shell : Json) (holes : Option (List Json))

/-- `pygeoif.geometry.Point(*args)`: the constructor signature is
`Point(x, y, z=None)`, so splatting a list of length other than 2 or 3
raises `TypeError`. -/
def mkPoint (args : List Json) : Except String Geom :=
  if args.length = 2 ∨ args.length = 3 then .ok (.point args)
  else .error "TypeError: Point argument count"

/-- The `depth == 1` branch of `get_geometry` (line 72):
`geom = geometry.Point(*raw_geom)`. -/
def pointBranch (j : Json) : Except String (Option Geom) :=
  match j with
  | .arr xs =>
    match mkPoint xs with
    | .ok g => .ok (some g)
    | .error e => .error e
  | _ => .ok none

/-- The `depth == 3` branch of `get_geometry` (lines 74-75):
`shell, *holes = raw_geom; geom = geometry.Polygon(shell, holes or None)`.
The depth computation guarantees a non-empty array here. -/
def polyBranch (j : Json) : Except String (Option Geom) :=
  match j with
  | .arr (shell :: holes) =>
    .ok (some (.polygon shell (if holes.isEmpty then none else some holes)))
  | _ => .ok none

/-- Dispatch on the computed depth (lines 70-75): `IndexError` from the
depth computation propagates; depth 1 builds a Point, depth 3 a Polygon,
anything else leaves `geom = None`. -/
def depthDispatch (r : Except String Nat) (j : Json) : Except String (Option Geom) :=
  match r with
  | .error e => .error e
  | .ok 1 => pointBranch j
  | .ok 3 => polyBranch j
  | .ok _ => .ok none

/-- Lines 64-75: the `else` branch of `get_geometry` — `json.loads` with
`ValueError` caught (logged, yields `None`), then depth dispatch. -/
def geometryOfLoaded : LoadResult → Except String (Option Geom)
  | .failure => .ok none
  | .success j => depthDispatch (get_depth j) j

/-- `get_geometry` (process.py lines 56-79): falsy source and the
`"Multipolygon"` WKT form yield no geometry; everything else goes
through `json.loads` and the depth dispatch. -/
def get_geometry (source : String) (loaded : LoadResult) : Except String (Option Geom) :=
  if source = "" then .ok none
  else if pyStartsWith source "Multipolygon" then .ok none
  else geometryOfLoaded loaded

/-! ## Reference normalizer (`slugify`)

Modelled from the spec: the reference normalizer itself is provided by
the external `slugify` library (the import at process.py line 16) and its
code is not part of this repository; §4.1 of the spec gives its contract:
"lowercase, non-alphanumeric runs collapsed to a separator" (slug style,
so boundary separators are stripped). -/

/-- Is `c` a character a slug may contain: an ASCII lowercase letter or a
decimal digit? -/
def slugChar (c : Char) : Bool :=
  (97 ≤ c.toNat && c.toNat ≤ 122) || (48 ≤ c.toNat && c.toNat ≤ 57)

/-- Collect the maximal runs of slug characters, in order; `acc` is the
run currently being read. -/
def slugWordsAux : List Char → List Char → List (List Char)
  | [], acc => if acc.isEmpty then [] else [acc]
  | c :: rest, acc =>
    if slugChar c then slugWordsAux rest (acc ++ [c])
    else if acc.isEmpty then slugWordsAux rest []
    else acc :: slugWordsAux rest []

/-- Join words with the `-` separator. -/
def slugJoin : List (List Char) → List Char
  | [] => []
  | [w] => w
  | w :: ws => w ++ '-' :: slugJoin ws

/-- Modelled from the spec: the reference normalizer (`slugify`) —
lowercase the text, collapse every maximal run of other characters into
a single `-`, and strip leading/trailing separators. -/
def slugify (s : String) : String :=
  String.mk (slugJoin (slugWordsAux (s.data.map Char.toLower) []))

/-! ## Source rows and node builders (process.py lines 41-46, 82-211)

CSV rows are embedded as structures holding the columns the pipeline
reads (`csv.DictReader` yields every missing cell as `""`).  Fields not
read by any code path a claim depends on (DOI, websites on products,
consortium, …) are omitted from the row structures; they flow verbatim
into item properties and never influence control flow or statistics.
-/

/-- The `Theme1`..`Theme6` columns shared by the project and product
sheets. -/
structure ThemeSlots where
  t1 : String
  t2 : String
  t3 : String
  t4 : String
  t5 : String
  t6 : String
deriving Repr, DecidableEq

/-- All-blank theme slots. -/
def noSlots : ThemeSlots := ⟨"", "", "", "", "", ""⟩

/-- `get_themes` (process.py lines 41-46): the non-empty (truthy) values
of the six `Theme{i}` columns, in order. -/
def get_themes (s : ThemeSlots) : List String :=
  [s.t1, s.t2, s.t3, s.t4, s.t5, s.t6].filter (fun v => v ≠ "")

/-- A row of the themes sheet (columns read: `theme`, `description`,
`link`). -/
structure ThemeRow where
  theme : String
  description : String
  link : String
deriving Repr, DecidableEq

/-- A row of the variables sheet (columns read: `variable`,
`variable description`, `theme`, `link`). -/
structure VariableRow where
  varName : String
  varDescription : String
  theme : String
  link : String
deriving Repr, DecidableEq

/-- A row of the projects sheet (the columns that drive the pipeline:
`Project_ID` and the theme slots; the project date columns are handed to
the external `dateutil` parser, which is out of scope per §1 of the
spec, and the remaining columns are copied verbatim into properties). -/
structure ProjectRow where
  projectId : String
  slots : ThemeSlots
deriving Repr, DecidableEq

/-- A row of the products sheet (columns that drive the pipeline: `ID`,
`Variable`, `Start`, `End`, `Polygon`, theme slots).  `polygonLoaded` is
the oracle outcome of `json.loads` on the `Polygon` column. -/
structure ProductRow where
  id : String
  varName : String
  start : String
  stop : String
  polygon : String
  polygonLoaded : LoadResult
  slots : ThemeSlots

/-- A built product item: the fields of the `pystac.Item` made by
`product_to_item` that later stages read. -/
structure ProductItem where
  id : String
  varName : String
  themes : List String
  start : Option PyDate
  stop : Option PyDate
  geom : Option Geom

/-- `product_to_item` (process.py lines 82-126): the properties dict is
built first — `Start` then `End` go through `parse_date` (a falsy value
short-circuits to `None`, which coincides with `parse_date ""`) — and
then the `pystac.Item` call evaluates `get_geometry(obj["Polygon"])`.
Each step can raise, aborting the whole run. -/
def product_to_item (r : ProductRow) : Except String ProductItem :=
  match parse_date r.start with
  | .error e => .error e
  | .ok sd =>
    match parse_date r.stop with
    | .error e => .error e
    | .ok ed =>
      match get_geometry r.polygon r.polygonLoaded with
      | .error e => .error e
      | .ok g =>
        .ok { id := "product-" ++ r.id, varName := r.varName,
              themes := get_themes r.slots, start := sd, stop := ed, geom := g }

/-- A built project item (`project_to_item`, process.py lines 129-164):
id and theme memberships are what the later passes read. -/
structure ProjectItem where
  id : String
  themes : List String
deriving Repr, DecidableEq

/-- `project_to_item` restricted to the pipeline-relevant fields.  (The
two `dateutil.parser.parse` calls on the project date columns are
external and fatal on malformed input; no claim depends on them.) -/
def project_to_item (r : ProjectRow) : ProjectItem :=
  { id := "project-" ++ r.projectId, themes := get_themes r.slots }

/-- A rel/target link record on a collection. -/
structure PyLink where
  rel : String
  target : String
deriving Repr, DecidableEq

/-- A theme `pystac.Collection` as built and then mutated by `main`.
`childVars` holds indices into the run's variable-collection list and
`items` indices into the project-item list: the Python code attaches the
shared objects themselves; indices model that aliasing. -/
structure ThemeColl where
  id : String
  description : String
  links : List PyLink
  childVars : List Nat
  items : List Nat
deriving Repr, DecidableEq

/-- `theme_to_collection` (process.py lines 167-187): id is the stripped
`theme` column and a single `via` link is always attached.  (pystac's
`add_child`/`add_item` later also append `child`/`item` rel links, which
`get_single_link("via")` ignores; they are modelled by the `childVars`
and `items` index lists.) -/
def theme_to_collection (r : ThemeRow) : ThemeColl :=
  { id := pyStrip r.theme, description := r.description,
    links := [{ rel := "via", target := r.link }], childVars := [], items := [] }

/-- A variable `pystac.Collection`; `items` holds indices into the run's
product-item list. -/
structure VarColl where
  id : String
  description : String
  themeName : String
  links : List PyLink
  items : List Nat
deriving Repr, DecidableEq

/-- `variable_to_collection` (process.py lines 190-211): id is the
stripped `variable` column; `osc:theme` keeps the raw `theme` column. -/
def variable_to_collection (r : VariableRow) : VarColl :=
  { id := pyStrip r.varName, description := r.varDescription,
    themeName := r.theme, links := [{ rel := "via", target := r.link }], items := [] }

/-! ## Hierarchy builder (process.py lines 239-289)

`theme_map` and `variable_map` are dict comprehensions keyed by
`slugify(coll.id)`; a later collection with the same key overwrites an
earlier one, so a lookup resolves to the **last** collection with the
key.  Collections are Python objects mutated through the maps; here they
live in the run's lists and lookups return list indices (ids are never
mutated, so rebuilding the key list at each step is equivalent to the
maps built once at lines 244-247 and 254-257).
-/

/-- Index of the last element of `keys` equal to `k` — dict-comprehension
lookup semantics. -/
def lastIdxOf (keys : List String) (k : String) : Option Nat :=
  match keys.reverse.findIdx? (fun s => s == k) with
  | some i => some (keys.length - 1 - i)
  | none => none

/-- Append product index `idx` to the items of variable collection
`vi`. -/
def addVarItem (vars : List VarColl) (vi idx : Nat) : List VarColl :=
  match vars.get? vi with
  | some v => vars.set vi { v with items := v.items ++ [idx] }
  | none => vars

/-- Append variable index `ci` to the children of theme collection
`ti`. -/
def addThemeChild (themes : List ThemeColl) (ti ci : Nat) : List ThemeColl :=
  match themes.get? ti with
  | some t => themes.set ti { t with childVars := t.childVars ++ [ci] }
  | none => themes

/-- Append project index `idx` to the items of theme collection `ti`. -/
def addThemeItem (themes : List ThemeColl) (ti idx : Nat) : List ThemeColl :=
  match themes.get? ti with
  | some t => themes.set ti { t with items := t.items ++ [idx] }
  | none => themes

/-- Lines 271-273: every variable collection is attached as a child of
the theme found under `slugify(osc:theme)`; a miss is an uncaught
`KeyError`. -/
def attachVars (themes : List ThemeColl) (vars : List VarColl) : Except String (List ThemeColl) :=
  (List.range vars.length).foldlM
    (fun ths vi =>
      match vars.get? vi with
      | none => .ok ths
      | some v =>
        match lastIdxOf (ths.map (fun t => slugify t.id)) (slugify v.themeName) with
        | some ti => .ok (addThemeChild ths ti vi)
        | none => .error ("KeyError: " ++ slugify v.themeName))
    themes

/-- Lines 276-281: the loop body looks `slugify(osc:variable)` up in
`variable_map` inside a `try`; on `KeyError` it prints a diagnostic — but
`variable_coll.add_item(item)` stands **outside** the `try`, so the item
is then added to the variable resolved in a *previous* iteration, and if
no lookup has succeeded yet the name `variable_coll` is unbound and the
run dies with a `NameError`.  `last?` carries that leftover binding. -/
def attachProductsGo (vars : List VarColl) :
    List ProductItem → Nat → Option Nat → List String →
    Except String (List VarColl × List String)
  | [], _, _, diags => .ok (vars, diags)
  | p :: rest, idx, last?, diags =>
    match lastIdxOf (vars.map (fun v => slugify v.id)) (slugify p.varName) with
    | some vi => attachProductsGo (addVarItem vars vi idx) rest (idx + 1) (some vi) diags
    | none =>
      let diags := diags ++ ["Missing variable " ++ p.varName]
      match last? with
      | none => .error "NameError: variable_coll is not defined"
      | some vi => attachProductsGo (addVarItem vars vi idx) rest (idx + 1) (some vi) diags

/-- The product-attachment pass (lines 276-281). -/
def attachProducts (vars : List VarColl) (prods : List ProductItem) :
    Except String (List VarColl × List String) :=
  attachProductsGo vars prods 0 none []

/-- Lines 284-286: each project item is attached under every theme of its
`osc:themes` list; a lookup miss is an uncaught `KeyError`. -/
def attachProjects (themes : List ThemeColl) (projs : List ProjectItem) :
    Except String (List ThemeColl) :=
  (List.range projs.length).foldlM
    (fun ths j =>
      match projs.get? j with
      | none => .ok ths
      | some p =>
        p.themes.foldlM
          (fun ths name =>
            match lastIdxOf (ths.map (fun t => slugify t.id)) (slugify name) with
            | some ti => .ok (addThemeItem ths ti j)
            | none => .error ("KeyError: " ++ slugify name))
          ths)
    themes

/-! ## Aggregation engine (process.py lines 292-337) -/

/-- A variable collection after the summary pass (lines 292-303):
`osc:years` collects the years of the attached products that carry a
start date, and `osc:numberOfProducts` is the loop counter `i`, which is
`0` for an empty item list thanks to the reset at line 294. -/
structure AggVar where
  id : String
  description : String
  items : List Nat
  years : Finset Int
  nProducts : Nat
deriving DecidableEq

/-- Aggregate one variable collection (one iteration of lines 292-303). -/
def aggVar (prods : List ProductItem) (v : VarColl) : AggVar :=
  let step := fun (acc : Finset Int × Nat) (pi : Nat) =>
    match prods.get? pi with
    | some p =>
      (match p.start with
       | some d => insert d.year acc.1
       | none => acc.1, acc.2 + 1)
    | none => (acc.1, acc.2 + 1)
  let r := v.items.foldl step (∅, 0)
  { id := v.id, description := v.description, items := v.items,
    years := r.1, nProducts := r.2 }

/-- A theme collection after the summary pass (lines 305-320). -/
structure AggTheme where
  id : String
  description : String
  links : List PyLink
  childVars : List Nat
  items : List Nat
  years : Finset Int
  nProducts : Nat
  nVariables : Nat
  nProjects : Nat
deriving DecidableEq

/-- One iteration of the theme collections loop (lines 309-311): union
the child years, add its product count, bump the counter `i`. -/
def themeStep (avs : List AggVar) (acc : Finset Int × Nat × Nat) (ci : Nat) :
    Finset Int × Nat × Nat :=
  match avs.get? ci with
  | some v => (acc.1 ∪ v.years, acc.2.1 + v.nProducts, acc.2.2 + 1)
  | none => (acc.1, acc.2.1, acc.2.2 + 1)

/-- Aggregate one theme collection (one iteration of lines 305-320).
The collections loop uses counter `i` (reset at line 308); the items
loop at line 317 **reuses** `i` without a reset, so with zero items
`osc:numberOfProjects` keeps the child-collection count. -/
def aggTheme (avs : List AggVar) (t : ThemeColl) : AggTheme :=
  let r := t.childVars.foldl (themeStep avs) (∅, 0, 0)
  { id := t.id, description := t.description, links := t.links,
    childVars := t.childVars, items := t.items,
    years := r.1, nProducts := r.2.1, nVariables := r.2.2,
    nProjects := if t.items.isEmpty then r.2.2 else t.items.length }

/-- The catalog-level statistics (lines 322-337). -/
structure CatalogStats where
  years : Finset Int
  nProducts : Nat
  nProjects : Nat
  nVariables : Nat
  nThemes : Nat
deriving DecidableEq

/-- Lines 322-337: sum the theme product and variable counts, union the
years, count the themes; `osc:numberOfProjects` is `len(project_items)`,
the raw count of built project items. -/
def catalogStats (ats : List AggTheme) (projs : List ProjectItem) : CatalogStats :=
  let r := ats.foldl
    (fun (acc : Finset Int × Nat × Nat) t =>
      (acc.1 ∪ t.years, acc.2.1 + t.nProducts, acc.2.2 + t.nVariables))
    (∅, 0, 0)
  { years := r.1, nProducts := r.2.1, nProjects := projs.length,
    nVariables := r.2.2, nThemes := ats.length }

/-- Everything `main` has in hand after the aggregation pass. -/
structure RunResult where
  themes : List AggTheme
  vars : List AggVar
  catalog : CatalogStats
  diagnostics : List String
  productItems : List ProductItem
  projectItems : List ProjectItem

/-- The `main` pipeline from row lists to the aggregated tree
(process.py lines 220-337): build the collections and items, attach
variables to themes, products to variables, projects to themes, then run
the three aggregation passes.  Any uncaught Python exception surfaces as
`Except.error`. -/
def runPipeline (tr : List ThemeRow) (vr : List VariableRow)
    (pr : List ProjectRow) (prodr : List ProductRow) : Except String RunResult :=
  match prodr.mapM product_to_item with
  | .error e => .error e
  | .ok productItems =>
    match attachVars (tr.map theme_to_collection) (vr.map variable_to_collection) with
    | .error e => .error e
    | .ok themes1 =>
      match attachProducts (vr.map variable_to_collection) productItems with
      | .error e => .error e
      | .ok (vars1, diags) =>
        match attachProjects themes1 (pr.map project_to_item) with
        | .error e => .error e
        | .ok themes2 =>
          .ok { themes := themes2.map (aggTheme (vars1.map (aggVar productItems))),
                vars := vars1.map (aggVar productItems),
                catalog := catalogStats
                  (themes2.map (aggTheme (vars1.map (aggVar productItems))))
                  (pr.map project_to_item),
                diagnostics := diags,
                productItems := productItems,
                projectItems := pr.map project_to_item }

/-- The number of distinct project ids reachable from any theme of the
aggregated tree (what §4.4 of the spec calls the distinct-Project
count). -/
def distinctReachableProjectIds (r : RunResult) : Nat :=
  (((r.themes.map AggTheme.items).flatten).filterMap
    (fun i => (r.projectItems.get? i).map ProjectItem.id)).eraseDups.length

/-! ## Summary projector (process.py lines 339-375) -/

/-- `get_single_link(rel)` (pystac): the first link whose rel matches,
`None` when there is none. -/
def get_single_link (links : List PyLink) (rel : String) : Option PyLink :=
  links.find? (fun l => l.rel == rel)

/-- The sorted year list serialized for a node. -/
def yearsJson (ys : Finset Int) : Json :=
  .arr ((ys.sort (· ≤ ·)).map Json.num)

/-- One entry of the `variables` array of a theme entry (lines
361-371). -/
def var_metrics_entry (v : AggVar) : Json :=
  .obj [("name", .str v.id), ("description", .str v.description),
        ("summary", .obj [("years", yearsJson v.years),
                          ("numberOfProducts", .num (Int.ofNat v.nProducts))])]

/-- One entry of the `themes` array of `metrics.json` (lines 348-374).
The `website` key is unconditionally present and its value is
`get_single_link(via).get_href()`; when the collection has no `via` link,
`get_single_link` returns `None` and the `.get_href()` attribute access
raises `AttributeError`. -/
def theme_metrics_entry (avs : List AggVar) (t : AggTheme) : Except String Json :=
  match get_single_link t.links "via" with
  | none => .error "AttributeError: NoneType has no attribute get_href"
  | some l =>
    .ok (.obj
      [("name", .str t.id), ("description", .str t.description),
       ("image", .str "..."), ("website", .str l.target),
       ("summary", .obj [("years", yearsJson t.years),
                         ("numberOfProducts", .num (Int.ofNat t.nProducts)),
                         ("numberOfProjects", .num (Int.ofNat t.nProjects)),
                         ("numberOfVariables", .num (Int.ofNat t.nVariables))]),
       ("variables", .arr (t.childVars.filterMap
          (fun i => (avs.get? i).map var_metrics_entry)))])

/-- Look a key up in a serialized JSON object: `some` exactly when the
key is present. -/
def jsonObjGet (j : Json) (k : String) : Option Json :=
  match j with
  | .obj kvs => (kvs.find? (fun kv => kv.1 == k)).map (fun kv => kv.2)
  | _ => none

/-! ## Output directory and layout serializer (process.py lines 377-405)

The filesystem is modelled as the set of directories (with their current
entries) and the files written so far.  `os.makedirs(out_dir)` (default
`exist_ok=False`) raises `FileExistsError` whenever the leaf directory
already exists; only then does `main` write `metrics.json` and hand the
tree to `normalize_and_save`, which writes one file per node. -/

/-- Directories (name with current entries) and written files (path with
content) of the output volume. -/
structure FileSystem where
  dirs : List (String × List String)
  files : List (String × String)
deriving DecidableEq

/-- `os.makedirs(path)` with the default `exist_ok=False`. -/
def makedirs (path : String) (fs : FileSystem) : Except String FileSystem :=
  if path ∈ fs.dirs.map Prod.fst then .error "FileExistsError"
  else .ok { fs with dirs := fs.dirs ++ [(path, [])] }

/-- The tail of `main` (lines 377-405): create the output directory,
then write `metrics.json`, then let `normalize_and_save` write every
node document.  Returns the filesystem after the run and the uncaught
exception, if any. -/
def writeOutputs (out_dir metricsDoc : String) (nodeDocs : List (String × String))
    (fs : FileSystem) : FileSystem × Option String :=
  match makedirs out_dir fs with
  | .error e => (fs, some e)
  | .ok fs1 =>
    let fs2 := { fs1 with files := fs1.files ++ [(out_dir ++ "/metrics.json", metricsDoc)] }
    let fs3 := { fs2 with
      files := fs2.files ++ nodeDocs.map (fun d => (out_dir ++ "/" ++ d.1, d.2)) }
    (fs3, none)

/-! ### Concrete rows used by the concrete-run theorems -/

/-- A concrete product row whose start date is December 2019. -/
def decemberRow : ProductRow :=
  { id := "9", varName := "v", start := "2019.12", stop := "",
    polygon := "", polygonLoaded := .failure, slots := noSlots }

/-- The Climate theme row used by the concrete runs. -/
def climateRow : ThemeRow := { theme := "Climate", description := "d", link := "http://c" }

/-- The Soil Moisture variable row, filed under Climate. -/
def soilVarRow : VariableRow :=
  { varName := "Soil Moisture", varDescription := "vd", theme := "Climate", link := "http://v" }

/-- A product row that resolves to the Soil Moisture variable. -/
def soilProduct : ProductRow :=
  { id := "1", varName := "Soil Moisture", start := "2019.03", stop := "",
    polygon := "", polygonLoaded := .failure, slots := noSlots }

/-- A product row whose variable name matches no variable. -/
def orphanProduct : ProductRow :=
  { id := "2", varName := "Unknown", start := "2020.07", stop := "",
    polygon := "", polygonLoaded := .failure, slots := noSlots }

/-- A project row with all six theme slots blank: it is attached under no
theme and is unreachable from the tree. -/
def ghostProjectRow : ProjectRow := { projectId := "42", slots := noSlots }

/-! ## Theorems -/

/-- Every month has at least one day. -/
theorem one_le_daysInMonth (y m : Int) : 1 ≤ daysInMonth y m := by
  unfold daysInMonth
  split_ifs <;> omega

/-- C3 (counterexample): `"2019.12"` is a non-empty `"Year.Month"` date
string (December 2019), yet the parser raises a `ValueError` instead of
returning a calendar date, because the month component plus one is 13. -/
theorem parse_date_december_errors :
    parse_date "2019.12" = Except.error "ValueError: month must be in 1..12" := rfl

/-- C3 (amended): for every non-empty `"Year.Month"` date string whose
year component lies in the calendar range 1..9999 and whose month
component is at most 11, the parser returns the date with the same year,
the month component plus one, and day 1; the empty string yields an
absent date. -/
theorem parse_date_year_month_amended (s sy sm : String) (y m : Int)
    (hs : s ≠ "") (hsplit : pySplit s '.' = [sy, sm])
    (hy : pyInt sy = some y) (hm : pyInt sm = some m)
    (hy1 : 1 ≤ y) (hy2 : y ≤ 9999) (hm0 : 0 ≤ m) (hm1 : m ≤ 11) :
    parse_date s = Except.ok (some ⟨y, m + 1, 1⟩) ∧ parse_date "" = Except.ok none := by
  refine ⟨?_, rfl⟩
  unfold parse_date
  rw [if_neg hs, hsplit]
  simp only [hy, hm]
  unfold mkDatetime
  rw [if_neg (by omega), if_neg (by omega),
    if_neg (by have := one_le_daysInMonth y (m + 1); omega)]

/-- C3 (witness): `"2019.03"` parses to April 1, 2019. -/
theorem parse_date_year_month_amended_witness :
    parse_date "2019.03" = Except.ok (some ⟨2019, 4, 1⟩) ∧ parse_date "" = Except.ok none :=
  parse_date_year_month_amended "2019.03" "2019" "03" 2019 3 (by decide) (by decide)
    (by decide) (by decide) (by decide) (by decide) (by decide) (by decide)

/-- C10: for every product row whose non-empty `Start` string has a month
component of 12 or more, `parse_date` raises, `product_to_item` raises,
and the whole pipeline run aborts. -/
theorem parse_date_month_ge_twelve_raises (r : ProductRow) (sy sm : String) (m : Int)
    (hs : r.start ≠ "") (hsplit : pySplit r.start '.' = [sy, sm])
    (hm : pyInt sm = some m) (h12 : 12 ≤ m) :
    (∃ e, parse_date r.start = Except.error e) ∧
    (∃ e, product_to_item r = Except.error e) ∧
    (∃ e, runPipeline [] [] [] [r] = Except.error e) := by
  have hdate : ∃ e, parse_date r.start = Except.error e := by
    unfold parse_date
    rw [if_neg hs, hsplit]
    simp only [hm]
    cases hpy : pyInt sy with
    | none => exact ⟨_, rfl⟩
    | some y =>
      show ∃ e, (match mkDatetime y (m + 1) 1 with
        | Except.ok d => Except.ok (some d)
        | Except.error e => Except.error e) = Except.error e
      have hmk : ∃ e, mkDatetime y (m + 1) 1 = Except.error e := by
        unfold mkDatetime
        split_ifs with h1 h2 h3
        · exact ⟨_, rfl⟩
        · exact ⟨_, rfl⟩
        · exact ⟨_, rfl⟩
        · omega
      obtain ⟨e2, he2⟩ := hmk
      rw [he2]
      exact ⟨e2, rfl⟩
  obtain ⟨e, he⟩ := hdate
  have hitem : product_to_item r = Except.error e := by
    unfold product_to_item
    rw [he]
  refine ⟨⟨e, he⟩, ⟨e, hitem⟩, ⟨e, ?_⟩⟩
  unfold runPipeline
  simp only [List.mapM, List.mapM.loop, hitem, Except.bind]
  rfl

/-- C10 (witness): the December row aborts parsing, item construction
and the run. -/
theorem parse_date_month_ge_twelve_raises_witness :
    (∃ e, parse_date decemberRow.start = Except.error e) ∧
    (∃ e, product_to_item decemberRow = Except.error e) ∧
    (∃ e, runPipeline [] [] [] [decemberRow] = Except.error e) :=
  parse_date_month_ge_twelve_raises decemberRow "2019" "12" 12
    (by decide) (by decide) (by decide) (by decide)

/-- C5 (counterexample): `"[]"` is valid JSON (an empty array), yet the
geometry parser raises an `IndexError` inside the depth computation
(`maybe_list[0]` on an empty list) instead of terminating without an
exception. -/
theorem get_geometry_empty_array_raises :
    get_geometry "[]" (.success (.arr [])) =
      Except.error "IndexError: list index out of range" := rfl

/-- C5 (amended): for every geometry source that is absent (empty), has
the unsupported WKT-multipolygon form, fails to load as JSON, or loads
as a value whose depth computation succeeds with a depth other than 1
(Point) and 3 (Polygon), the geometry parser terminates without an
exception and yields an absent geometry.  (A loaded value with an empty
array on its leading-element chain makes the depth computation itself
raise `IndexError`, per the counterexample.) -/
theorem get_geometry_absent_cases (source : String) (loaded : LoadResult)
    (h : source = "" ∨ pyStartsWith source "Multipolygon" = true ∨ loaded = .failure ∨
         (∃ j d, loaded = .success j ∧ get_depth j = .ok d ∧ d ≠ 1 ∧ d ≠ 3)) :
    get_geometry source loaded = Except.ok none := by
  unfold get_geometry
  by_cases hs : source = ""
  · rw [if_pos hs]
  · rw [if_neg hs]
    by_cases hmp : pyStartsWith source "Multipolygon" = true
    · rw [if_pos hmp]
    · rw [if_neg hmp]
      rcases h with h | h | h | ⟨j, d, hj, hd, h1, h3⟩
      · exact absurd h hs
      · exact absurd h hmp
      · rw [h]
        rfl
      · rw [hj]
        show depthDispatch (get_depth j) j = Except.ok none
        rw [hd]
        match d, h1, h3 with
        | 0, _, _ => rfl
        | 1, h1, _ => exact absurd rfl h1
        | 2, _, _ => rfl
        | 3, _, h3 => exact absurd rfl h3
        | (n + 4), _, _ => rfl

/-- C5 (witness): a depth-2 JSON array yields absent geometry without an
exception. -/
theorem get_geometry_absent_cases_witness :
    get_geometry "[[1, 2]]" (.success (.arr [.arr [.num 1, .num 2]])) = Except.ok none :=
  get_geometry_absent_cases "[[1, 2]]" (.success (.arr [.arr [.num 1, .num 2]]))
    (Or.inr (Or.inr (Or.inr ⟨.arr [.arr [.num 1, .num 2]], 2, rfl, rfl, by decide, by decide⟩)))

/-- A slug character is not changed by lowercasing. -/
theorem slugChar_toLower (c : Char) (h : slugChar c = true) : c.toLower = c := by
  unfold slugChar at h
  simp only [Bool.or_eq_true, Bool.and_eq_true, decide_eq_true_eq] at h
  unfold Char.toLower
  rw [if_neg (by omega)]

/-- The separator is not changed by lowercasing. -/
theorem dash_toLower : Char.toLower '-' = '-' := by decide

/-- Unfolding equation of the run scanner on the empty input. -/
theorem slugWordsAux_nil (acc : List Char) :
    slugWordsAux [] acc = if acc.isEmpty then [] else [acc] := rfl

/-- Unfolding equation of the run scanner on a cons. -/
theorem slugWordsAux_cons (c : Char) (rest acc : List Char) :
    slugWordsAux (c :: rest) acc =
      if slugChar c then slugWordsAux rest (acc ++ [c])
      else if acc.isEmpty then slugWordsAux rest []
      else acc :: slugWordsAux rest [] := rfl

/-- Every word produced by the run scanner is non-empty and consists of
slug characters, provided the accumulator does. -/
theorem slugWordsAux_good : ∀ (cs acc : List Char),
    (∀ c ∈ acc, slugChar c = true) →
    ∀ w ∈ slugWordsAux cs acc, w ≠ [] ∧ ∀ c ∈ w, slugChar c = true := by
  intro cs
  induction cs with
  | nil =>
    intro acc hacc w hw
    rw [slugWordsAux_nil] at hw
    by_cases he : acc.isEmpty
    · rw [if_pos he] at hw
      exact absurd hw (List.not_mem_nil w)
    · rw [if_neg he] at hw
      rcases List.mem_singleton.mp hw with rfl
      exact ⟨fun hnil => he (by rw [hnil]; rfl), hacc⟩
  | cons c rest ih =>
    intro acc hacc w hw
    rw [slugWordsAux_cons] at hw
    by_cases hc : slugChar c = true
    · rw [if_pos hc] at hw
      exact ih (acc ++ [c])
        (fun x hx => by
          rcases List.mem_append.mp hx with hx | hx
          · exact hacc x hx
          · rcases List.mem_singleton.mp hx with rfl
            exact hc)
        w hw
    · rw [if_neg hc] at hw
      by_cases he : acc.isEmpty
      · rw [if_pos he] at hw
        exact ih [] (by simp) w hw
      · rw [if_neg he] at hw
        rcases List.mem_cons.mp hw with rfl | hw
        · exact ⟨fun hnil => he (by rw [hnil]; rfl), hacc⟩
        · exact ih [] (by simp) w hw

/-- Every character of a joined word list is a slug character or the
separator. -/
theorem slugJoin_chars : ∀ (ws : List (List Char)),
    (∀ w ∈ ws, ∀ c ∈ w, slugChar c = true) →
    ∀ c ∈ slugJoin ws, slugChar c = true ∨ c = '-'
  | [], _, c, hc => absurd hc (by simp [slugJoin])
  | [w], hw, c, hc => Or.inl (hw w (by simp) c (by simpa [slugJoin] using hc))
  | w :: v :: ws, hw, c, hc => by
    have hj : slugJoin (w :: v :: ws) = w ++ '-' :: slugJoin (v :: ws) := rfl
    rw [hj] at hc
    rcases List.mem_append.mp hc with hc | hc
    · exact Or.inl (hw w (by simp) c hc)
    · rcases List.mem_cons.mp hc with rfl | hc
      · exact Or.inr rfl
      · exact slugJoin_chars (v :: ws) (fun u hu => hw u (List.mem_cons_of_mem w hu)) c hc

/-- Lowercasing fixes a list of slug characters and separators. -/
theorem lower_fix : ∀ (l : List Char),
    (∀ c ∈ l, slugChar c = true ∨ c = '-') → l.map Char.toLower = l
  | [], _ => rfl
  | c :: l, h => by
    have hc : Char.toLower c = c := by
      rcases h c (List.mem_cons_self c l) with hc | rfl
      · exact slugChar_toLower c hc
      · exact dash_toLower
    simp only [List.map_cons, hc,
      lower_fix l (fun x hx => h x (List.mem_cons_of_mem c hx))]

/-- Feeding a run of slug characters into the scanner extends the
current accumulator with that run. -/
theorem slugWordsAux_run : ∀ (w cs acc : List Char),
    (∀ c ∈ w, slugChar c = true) →
    slugWordsAux (w ++ cs) acc = slugWordsAux cs (acc ++ w)
  | [], cs, acc, _ => by simp
  | c :: w, cs, acc, h => by
    have hc : slugChar c = true := h c (List.mem_cons_self c w)
    rw [List.cons_append, slugWordsAux_cons, if_pos hc,
      slugWordsAux_run w cs (acc ++ [c]) (fun x hx => h x (List.mem_cons_of_mem c hx))]
    congr 1
    simp

/-- Scanning the join of non-empty slug words recovers exactly those
words. -/
theorem slugWordsAux_join : ∀ (ws : List (List Char)),
    (∀ w ∈ ws, w ≠ [] ∧ ∀ c ∈ w, slugChar c = true) →
    slugWordsAux (slugJoin ws) [] = ws
  | [], _ => rfl
  | [w], h => by
    obtain ⟨hne, hcs⟩ := h w (by simp)
    have hj : slugJoin [w] = w ++ [] := by simp [slugJoin]
    rw [hj, slugWordsAux_run w [] [] hcs, slugWordsAux_nil,
      if_neg (by simpa [List.isEmpty_iff] using hne)]
    simp
  | w :: v :: ws, h => by
    obtain ⟨hne, hcs⟩ := h w (by simp)
    have hj : slugJoin (w :: v :: ws) = w ++ '-' :: slugJoin (v :: ws) := rfl
    rw [hj, slugWordsAux_run w ('-' :: slugJoin (v :: ws)) [] hcs, List.nil_append,
      slugWordsAux_cons, if_neg (by decide),
      if_neg (by simpa [List.isEmpty_iff] using hne),
      slugWordsAux_join (v :: ws) (fun u hu => h u (List.mem_cons_of_mem w hu))]

/-- C7: the reference normalizer is idempotent —
`slugify (slugify x) = slugify x` for every string `x`. -/
theorem slugify_idempotent (s : String) : slugify (slugify s) = slugify s := by
  unfold slugify
  have hgood := slugWordsAux_good (s.data.map Char.toLower) []
    (by intro c hc; exact absurd hc (List.not_mem_nil c))
  have hdata : (String.mk (slugJoin (slugWordsAux (s.data.map Char.toLower) []))).data
      = slugJoin (slugWordsAux (s.data.map Char.toLower) []) := rfl
  rw [hdata, lower_fix _ (slugJoin_chars _ (fun w hw => (hgood w hw).2)),
    slugWordsAux_join _ hgood]

/-- C8: for every run whose output directory already exists with
non-empty contents, the output stage fails with `FileExistsError` and
leaves the filesystem unchanged — no node file and no metrics document
is written. -/
theorem existing_out_dir_blocks_writes (fs : FileSystem) (out_dir metricsDoc : String)
    (entries : List String) (nodeDocs : List (String × String))
    (hmem : (out_dir, entries) ∈ fs.dirs) (_hne : entries ≠ []) :
    (writeOutputs out_dir metricsDoc nodeDocs fs).2 = some "FileExistsError" ∧
    (writeOutputs out_dir metricsDoc nodeDocs fs).1 = fs := by
  have hc : out_dir ∈ fs.dirs.map Prod.fst :=
    List.mem_map.mpr ⟨(out_dir, entries), hmem, rfl⟩
  unfold writeOutputs makedirs
  rw [if_pos hc]
  exact ⟨rfl, rfl⟩

/-- C8 (witness): a `dist` directory holding a stale file blocks the
whole output stage. -/
theorem existing_out_dir_blocks_writes_witness :
    (writeOutputs "dist" "m" [("themes/climate.json", "x")]
        ⟨[("dist", ["old.json"])], []⟩).2 = some "FileExistsError" ∧
    (writeOutputs "dist" "m" [("themes/climate.json", "x")]
        ⟨[("dist", ["old.json"])], []⟩).1 = ⟨[("dist", ["old.json"])], []⟩ :=
  existing_out_dir_blocks_writes ⟨[("dist", ["old.json"])], []⟩ "dist" "m"
    ["old.json"] [("themes/climate.json", "x")] (by decide) (by decide)

/-- C9 (counterexample): a theme row whose `link` column is empty — so no
link target is present — still gets a `website` key in its metrics
entry, bound to the empty string rather than being omitted. -/
theorem website_emitted_empty_not_omitted :
    (theme_metrics_entry [] (aggTheme [] (theme_to_collection
        { theme := "Climate", description := "d", link := "" }))).map
      (fun j => jsonObjGet j "website") = Except.ok (some (.str "")) := rfl

/-- C9 (amended): every theme entry of the metrics document carries a
`website` key, always present and equal to the href of the theme's first
`via` link (the `link` column verbatim, possibly empty — never omitted);
and on a theme collection with no `via` link at all the projector raises
an `AttributeError` instead of omitting the field. -/
theorem website_always_emitted (r : ThemeRow) (avs : List AggVar) (t : AggTheme) :
    ((theme_metrics_entry avs (aggTheme avs (theme_to_collection r))).map
        (fun j => jsonObjGet j "website") = Except.ok (some (.str r.link))) ∧
    (t.links = [] →
      theme_metrics_entry avs t =
        Except.error "AttributeError: NoneType has no attribute get_href") := by
  constructor
  · rfl
  · intro h
    unfold theme_metrics_entry
    rw [h]
    rfl

/-- C9 (witness): a populated link is echoed; a linkless collection makes
the projector raise. -/
theorem website_always_emitted_witness :
    ((theme_metrics_entry [] (aggTheme [] (theme_to_collection
        { theme := "T", description := "D", link := "http://t" }))).map
      (fun j => jsonObjGet j "website") = Except.ok (some (.str "http://t"))) ∧
    theme_metrics_entry []
        { id := "x", description := "", links := [], childVars := [], items := [],
          years := ∅, nProducts := 0, nVariables := 0, nProjects := 0 } =
      Except.error "AttributeError: NoneType has no attribute get_href" :=
  ⟨(website_always_emitted { theme := "T", description := "D", link := "http://t" } []
      { id := "x", description := "", links := [], childVars := [], items := [],
        years := ∅, nProducts := 0, nVariables := 0, nProjects := 0 }).1,
   (website_always_emitted { theme := "T", description := "D", link := "http://t" } []
      { id := "x", description := "", links := [], childVars := [], items := [],
        years := ∅, nProducts := 0, nVariables := 0, nProjects := 0 }).2 rfl⟩

/-- C1 (code bug): running with products `[soilProduct, orphanProduct]`,
the orphan's lookup miss prints the diagnostic, but — because
`variable_coll.add_item(item)` stands outside the `try` — the orphan
(product index 1) still lands in the Soil Moisture variable's item list
`[0, 1]`; and when the *first* product is the orphan the loop dies with a
`NameError`, aborting the run, instead of continuing. -/
theorem orphan_product_attached_to_previous_variable :
    ((runPipeline [climateRow] [soilVarRow] [] [soilProduct, orphanProduct]).map
        (fun r => (r.diagnostics, r.vars.map AggVar.items)) =
      Except.ok (["Missing variable Unknown"], [[0, 1]])) ∧
    runPipeline [climateRow] [soilVarRow] [] [orphanProduct] =
      Except.error "NameError: variable_coll is not defined" :=
  ⟨rfl, rfl⟩

/-- C2 (code bug): a theme with one variable child and zero attached
projects records `osc:numberOfProjects = 1` — the stale collections-loop
counter — although the number of project items attached to it is `0`. -/
theorem theme_zero_projects_records_variable_count :
    (runPipeline [climateRow] [soilVarRow] [] []).map
        (fun r => r.themes.map (fun t => (t.nProjects, t.items.length))) =
      Except.ok [(1, 0)] := rfl

/-- C4 (counterexample): with one theme and one membership-less project,
the catalog records `osc:numberOfProjects = 1` although the number of
distinct project ids reachable from any theme is `0` — the recorded
count is not the distinct-reachable count. -/
theorem unreachable_project_counted :
    (runPipeline [climateRow] [] [ghostProjectRow] []).map
        (fun r => (r.catalog.nProjects, distinctReachableProjectIds r)) =
      Except.ok (1, 0) := rfl

/-- On a successful run, the catalog's recorded project count is the
number of project rows. -/
theorem runPipeline_ok_nProjects (tr : List ThemeRow) (vr : List VariableRow)
    (pr : List ProjectRow) (prodr : List ProductRow) (res : RunResult)
    (h : runPipeline tr vr pr prodr = .ok res) :
    res.catalog.nProjects = pr.length := by
  unfold runPipeline at h
  split at h
  · exact Except.noConfusion h
  · split at h
    · exact Except.noConfusion h
    · split at h
      · exact Except.noConfusion h
      · split at h
        · exact Except.noConfusion h
        · injection h with h2
          rw [← h2]
          simp [catalogStats]

/-- C4 (amended): on every successful run the catalog's recorded total
project count equals the number of project rows — each built project
item is counted exactly once, so a project attached under 3 themes still
counts 1, but a project with no theme membership is counted as well even
though it is unreachable from every theme. -/
theorem catalog_project_count_eq_rows (tr : List ThemeRow) (vr : List VariableRow)
    (pr : List ProjectRow) (prodr : List ProductRow) :
    (runPipeline tr vr pr prodr).map (fun r => r.catalog.nProjects) =
      (runPipeline tr vr pr prodr).map (fun _ => pr.length) := by
  cases hrun : runPipeline tr vr pr prodr with
  | error e => rfl
  | ok res =>
    show Except.ok res.catalog.nProjects = Except.ok pr.length
    rw [runPipeline_ok_nProjects tr vr pr prodr res hrun]

/-- C6: after the aggregation pass, every theme's recorded
`osc:numberOfProducts` equals the sum of the `osc:numberOfProducts`
statistics of its variable children, each child counted exactly once. -/
theorem theme_products_eq_sum_of_variable_products (avs : List AggVar) (t : ThemeColl) :
    (aggTheme avs t).nProducts =
      ((aggTheme avs t).childVars.map
        (fun i => ((avs.get? i).map AggVar.nProducts).getD 0)).sum := by
  show (t.childVars.foldl (themeStep avs) (∅, 0, 0)).2.1 =
    (t.childVars.map (fun i => ((avs.get? i).map AggVar.nProducts).getD 0)).sum
  have key : ∀ (l : List Nat) (ys : Finset Int) (np nv : Nat),
      (l.foldl (themeStep avs) (ys, np, nv)).2.1 =
        np + (l.map (fun i => ((avs.get? i).map AggVar.nProducts).getD 0)).sum := by
    intro l
    induction l with
    | nil => intro ys np nv; simp
    | cons ci l ih =>
      intro ys np nv
      rw [List.foldl_cons, List.map_cons, List.sum_cons]
      cases h : avs.get? ci with
      | some v =>
        rw [show themeStep avs (ys, np, nv) ci = (ys ∪ v.years, np + v.nProducts, nv + 1) by
          unfold themeStep; rw [h]]
        rw [ih]
        simp [h]
        omega
      | none =>
        rw [show themeStep avs (ys, np, nv) ci = (ys, np, nv + 1) by
          unfold themeStep; rw [h]]
        rw [ih]
        simp [h]
  rw [key]
  simp
